import Mathlib

/-!
# Verification of the appqueue repository against its specification

Shallow embedding of the parts of the `oqp/appqueue` clinical-laboratory queue
management system that the frozen claims are about:

* the SQL Server schema (`src/v1/backend/scripts.sql`): the `Tickets` status
  check constraint, and the unique constraints on `ServiceTypes.Code` and
  `Stations.Code`;
* the Angular `AuthInterceptor` (`auth.interceptor.ts`);
* the Angular `QueueService` (`queue.service.ts`): its endpoints, the
  `advanceQueue` request, the `getQueueStates` response normalisation and the
  `handleError` message mapping;
* the `VirtualKeyboardComponent`;
* the backend queue-advance operation, which is not present under `src/`
  (only the SQL schema and the frontend are); it is modelled from the spec.

JavaScript strings are modelled as Lean `String`s (and, where length
reasoning is needed, as `List Char`); JSON values as an inductive `Json`
type; HTTP traffic as explicit request/outcome values.
-/

namespace AppQueue

/-! ## SQL schema (`src/v1/backend/scripts.sql`)

`dbo.Tickets` has
`Status nvarchar(20) default 'Waiting' check ([Status] = 'NoShow' OR [Status] =
'Cancelled' OR [Status] = 'Completed' OR [Status] = 'InProgress' OR [Status] =
'Called' OR [Status] = 'Waiting')`; `dbo.ServiceTypes.Code` and
`dbo.Stations.Code` are `unique`; `dbo.Stations.Status` has its own check
constraint, and `dbo.ServiceTypes.Priority` is checked to lie in 1..5. -/

/-- The check constraint on `dbo.Tickets.Status`, disjuncts in source order. -/
def ticketStatusCheck (s : String) : Bool :=
  s == "NoShow" || s == "Cancelled" || s == "Completed" || s == "InProgress" ||
    s == "Called" || s == "Waiting"

/-- The six ticket statuses in the enum order the spec states:
`Waiting → Called → InProgress → Completed/Cancelled/NoShow`. -/
def statusOrder : List String :=
  ["Waiting", "Called", "InProgress", "Completed", "Cancelled", "NoShow"]

/-- Position of a status in the spec's linear enum order; the three terminal
statuses (`Completed`, `Cancelled`, `NoShow`) share the final position. -/
def statusRank (s : String) : Nat :=
  if s == "Waiting" then 0
  else if s == "Called" then 1
  else if s == "InProgress" then 2
  else 3

/-- Semantic model of a SQL `CHECK` constraint under `UPDATE`: the row being
written must satisfy the check; a check constraint evaluates only the new row
and cannot see the previous value of the column. An update of a ticket's
`Status` from `oldStatus` to `newStatus` is accepted by the `Tickets` table
constraints iff the new status passes the check. -/
def ticketStatusUpdateAllowed (_oldStatus newStatus : String) : Bool :=
  ticketStatusCheck newStatus

/-- The check constraint on `dbo.Stations.Status`, disjuncts in source order. -/
def stationStatusCheck (s : String) : Bool :=
  s == "Offline" || s == "Maintenance" || s == "Break" || s == "Busy" ||
    s == "Available"

/-- The check constraint on `dbo.ServiceTypes.Priority`. -/
def priorityCheck (p : Int) : Bool :=
  1 ≤ p && p ≤ 5

/-- A row of `dbo.Tickets` (the columns the claims mention). -/
structure TicketRow where
  Id : Nat
  TicketNumber : String
  PatientId : Nat
  ServiceTypeId : Nat
  StationId : Option Nat
  Status : String
  Position : Int
  CreatedAt : Nat
deriving DecidableEq, Repr

/-- A row of `dbo.ServiceTypes` (the columns the claims mention). -/
structure ServiceTypeRow where
  Id : Nat
  Code : String
  Name : String
  Priority : Int
  IsActive : Bool
deriving DecidableEq, Repr

/-- A row of `dbo.Stations` (the columns the claims mention). -/
structure StationRow where
  Id : Nat
  Name : String
  Code : String
  ServiceTypeId : Option Nat
  Status : String
  IsActive : Bool
deriving DecidableEq, Repr

/-- The tables of the database the claims are about. -/
structure Database where
  tickets : List TicketRow
  serviceTypes : List ServiceTypeRow
  stations : List StationRow
deriving DecidableEq, Repr

/-- The schema constraints of `scripts.sql` restricted to the three tables:
every ticket's status passes the `Tickets` check constraint, `Stations.Status`
passes its check, `ServiceTypes.Priority` passes its check, and the `unique`
constraints on `ServiceTypes.Code` and `Stations.Code` hold. -/
def schemaConstraints (db : Database) : Prop :=
  (∀ t ∈ db.tickets, ticketStatusCheck t.Status = true) ∧
  (∀ st ∈ db.stations, stationStatusCheck st.Status = true) ∧
  (∀ sv ∈ db.serviceTypes, priorityCheck sv.Priority = true) ∧
  (db.serviceTypes.map ServiceTypeRow.Code).Nodup ∧
  (db.stations.map StationRow.Code).Nodup

instance : DecidablePred schemaConstraints := by
  intro db
  unfold schemaConstraints
  infer_instance

/-! ## The Angular auth interceptor (`auth.interceptor.ts`)

An HTTP request is modelled by its URL and its `Authorization` header; the
outcome of handling a request is either a success value or a failure with an
HTTP status. `intercept` is modelled for a single request processed
sequentially (the `isRefreshing` flag is `false` on entry), with the server
modelled as a function `handle` from requests to outcomes and the
`authService.refreshAccessToken()` call modelled by its outcome
`refreshOutcome` (a new access token, or a failure). -/

/-- `true` when `pat` occurs as a substring of `url` (JS `url.includes(pat)`). -/
def urlContains (url pat : String) : Bool :=
  decide (pat.data <:+: url.data)

/-- An HTTP request: URL plus optional `Authorization` header value. -/
structure HttpRequest where
  url : String
  authorization : Option String
deriving DecidableEq, Repr

/-- The endpoints the interceptor treats as auth endpoints, in source order. -/
def authEndpoints : List String :=
  ["/login", "/refresh", "/reset-password"]

/-- `AuthInterceptor.isAuthEndpoint`: the request URL contains one of the
auth endpoint fragments. -/
def isAuthEndpoint (request : HttpRequest) : Bool :=
  authEndpoints.any fun endpoint => urlContains request.url endpoint

/-- `AuthInterceptor.addTokenToRequest`: clone the request with the
`Authorization` header set to `Bearer <token>`. -/
def addTokenToRequest (request : HttpRequest) (token : String) : HttpRequest :=
  { request with authorization := some ("Bearer " ++ token) }

/-- Outcome of an HTTP call: a success value, or a failure carrying the HTTP
status code. -/
inductive HttpOutcome (α : Type) where
  | success (value : α)
  | failure (status : Nat)
deriving DecidableEq, Repr

/-- The observable result of running the interceptor on one request:
the requests actually forwarded to `next.handle` in order, the final outcome
delivered to the caller, whether a token refresh was attempted, and whether
the user was logged out. -/
structure InterceptRun (α : Type) where
  forwarded : List HttpRequest
  result : HttpOutcome α
  refreshAttempted : Bool
  loggedOut : Bool
deriving DecidableEq, Repr

/-- The request as it stands after the first lines of `intercept`: the
source's `if (token && !this.isAuthEndpoint(request))` attaches the token when
it is truthy (present and non-empty) and the request is not to an auth
endpoint. -/
def attachToken (token : Option String) (request : HttpRequest) : HttpRequest :=
  match token with
  | some t =>
      if t != "" && !isAuthEndpoint request then addTokenToRequest request t
      else request
  | none => request

/-- `AuthInterceptor.handle401Error` on the `isRefreshing = false` path:
refresh the access token and retry the original request once with the new
token. The `catchError` wraps the whole `refreshAccessToken().pipe(switchMap
(... next.handle(retried)))` chain, so a failure of the refresh call or of
the retried request lands there: the user is logged out and that error is
propagated to the caller. -/
def handle401Error {α : Type} (request : HttpRequest)
    (handle : HttpRequest → HttpOutcome α)
    (refreshOutcome : HttpOutcome String) : InterceptRun α :=
  match refreshOutcome with
  | .success newToken =>
      let retried := addTokenToRequest request newToken
      match handle retried with
      | .success v =>
          { forwarded := [retried], result := .success v,
            refreshAttempted := true, loggedOut := false }
      | .failure status =>
          { forwarded := [retried], result := .failure status,
            refreshAttempted := true, loggedOut := true }
  | .failure status =>
      { forwarded := [], result := .failure status,
        refreshAttempted := true, loggedOut := true }

/-- `AuthInterceptor.intercept` for a single sequentially processed request:
attach the token unless the URL is an auth endpoint, forward the request, and
on a 401 failure of a non-auth request run `handle401Error`; every other
failure is propagated unchanged. (After the token is attached the source
mutates its `request` variable, so `handle401Error` receives the
token-carrying request; `addTokenToRequest` overwrites the header on retry.) -/
def intercept {α : Type} (token : Option String) (request : HttpRequest)
    (handle : HttpRequest → HttpOutcome α)
    (refreshOutcome : HttpOutcome String) : InterceptRun α :=
  let request1 := attachToken token request
  match handle request1 with
  | .success v =>
      { forwarded := [request1], result := .success v,
        refreshAttempted := false, loggedOut := false }
  | .failure status =>
      if status == 401 && !isAuthEndpoint request1 then
        let rest := handle401Error request1 handle refreshOutcome
        { rest with forwarded := request1 :: rest.forwarded }
      else
        { forwarded := [request1], result := .failure status,
          refreshAttempted := false, loggedOut := false }

/-! ## `QueueService.handleError` (`queue.service.ts`)

The error object is modelled by the two pieces `handleError` reads:
`error.error?.detail` (absent, or a string) and `error.status` (the HTTP
status, 0 when absent). JavaScript's `if (error.error?.detail)` is a
truthiness test: it is false when the detail is absent or the empty string. -/

/-- The pieces of the HTTP error object that `handleError` reads. -/
structure HttpErrorInfo where
  detail : Option String
  status : Nat
deriving DecidableEq, Repr

/-- JS truthiness of `error.error?.detail`: present and non-empty. -/
def detailTruthy : Option String → Bool
  | some s => s != ""
  | none => false

/-- `QueueService.handleError`: the message of the thrown error, following the
source's if/else-if chain (string literals exactly as in the repository). -/
def handleError (error : HttpErrorInfo) : String :=
  if detailTruthy error.detail then error.detail.getD ""
  else if error.status == 401 then "No autorizado. Por favor inicie sesi칩n nuevamente."
  else if error.status == 403 then "No tiene permisos para realizar esta acci칩n."
  else if error.status == 404 then "Recurso no encontrado."
  else if error.status == 500 then "Error del servidor. Por favor intente m치s tarde."
  else "Ocurri칩 un error en el servicio de colas"

/-! ## `QueueService.getQueueStates` response normalisation (`queue.service.ts`)

The response body is a JSON value. The source's `map` callback does:
`Array.isArray(response)` → return it; otherwise, when
`response && typeof response === 'object'` (a non-null object; arrays were
already handled), scan the keys `['queues', 'data', 'items', 'queue_states']`
and return the first value that is truthy and an array; otherwise return `[]`.
An array value is always truthy in JS, so `v && Array.isArray(v)` holds iff
`v` is an array. -/

/-- JSON values. -/
inductive Json where
  | null
  | boolean (b : Bool)
  | number (n : Int)
  | string (s : String)
  | array (items : List Json)
  | object (fields : List (String × Json))

/-- JS property access `obj[key]`: the value of the first field named `key`
(`none` models `undefined`). -/
def Json.lookup : List (String × Json) → String → Option Json
  | [], _ => none
  | (k, v) :: rest, key => if k == key then some v else Json.lookup rest key

/-- JS truthiness of a JSON value (`undefined` is handled at use sites). -/
def Json.truthy : Json → Bool
  | .null => false
  | .boolean b => b
  | .number n => n != 0
  | .string s => s != ""
  | .array _ => true
  | .object _ => true

/-- `Array.isArray`. -/
def Json.isArray : Json → Bool
  | .array _ => true
  | _ => false

/-- `typeof v === 'object'` (true for objects, arrays and `null`). -/
def Json.typeofObject : Json → Bool
  | .object _ => true
  | .array _ => true
  | .null => true
  | _ => false

/-- The items of an array value (used only under an `isArray` test). -/
def Json.asArray : Json → List Json
  | .array items => items
  | _ => []

/-- The keys `getQueueStates` probes, in source order. -/
def possibleKeys : List String :=
  ["queues", "data", "items", "queue_states"]

/-- The key-scanning loop of `getQueueStates`: for each key in order, if
`response[key]` is truthy and an array, return it; fall through to `[]`. -/
def scanPossibleKeys (fields : List (String × Json)) : List String → List Json
  | [] => []
  | key :: rest =>
      match Json.lookup fields key with
      | some v => if v.truthy && v.isArray then v.asArray else scanPossibleKeys fields rest
      | none => scanPossibleKeys fields rest

/-- The `map` callback of `QueueService.getQueueStates`: normalise the
response body to an array. -/
def normalizeQueueStatesResponse (response : Json) : List Json :=
  if response.isArray then response.asArray
  else if response.truthy && response.typeofObject then
    match response with
    | .object fields => scanPossibleKeys fields possibleKeys
    | _ => []
  else []

/-- Spec-side reading of the object case of claim C10: the value of the first
of the keys that holds an array, if any. -/
def firstArrayValue (fields : List (String × Json)) : List String → Option (List Json)
  | [] => none
  | key :: rest =>
      match Json.lookup fields key with
      | some (.array items) => some items
      | _ => firstArrayValue fields rest

/-! ## `VirtualKeyboardComponent` (virtual keyboard source file)

`displayValue` is a JS string of the digits typed so far; it is modelled as a
`List Char`. The template wires the buttons to `addNumber(num)` with `num`
one of the single-digit strings `'1'..'9'` and `'0'`, to `backspace()`, to
`clear()`, and to `submit()`. -/

/-- The state of the component: the `@Input()` bounds and `displayValue`. -/
structure VirtualKeyboardState where
  minLength : Nat
  maxLength : Nat
  displayValue : List Char
deriving DecidableEq, Repr

/-- The digit keys of the template: the `numbers` array `'1'..'9'` plus the
dedicated `'0'` key. -/
def keyboardKeys : List Char :=
  ['1', '2', '3', '4', '5', '6', '7', '8', '9', '0']

/-- `addNumber(num)`: append `num` when the display is below `maxLength`. -/
def addNumber (st : VirtualKeyboardState) (num : List Char) : VirtualKeyboardState :=
  if st.displayValue.length < st.maxLength then
    { st with displayValue := st.displayValue ++ num }
  else st

/-- `backspace()`: drop the last character when the display is non-empty
(JS `slice(0, -1)`). -/
def backspace (st : VirtualKeyboardState) : VirtualKeyboardState :=
  if st.displayValue.length > 0 then
    { st with displayValue := st.displayValue.dropLast }
  else st

/-- `clear()`: empty the display. -/
def clearDisplay (st : VirtualKeyboardState) : VirtualKeyboardState :=
  { st with displayValue := [] }

/-- The `isValid` getter. -/
def keyboardIsValid (st : VirtualKeyboardState) : Bool :=
  st.minLength ≤ st.displayValue.length && st.displayValue.length ≤ st.maxLength

/-- `submit()`: the value emitted on `onSubmit`, if any. -/
def submitEmits (st : VirtualKeyboardState) : Option (List Char) :=
  if keyboardIsValid st then some st.displayValue else none

/-- A user interaction as the template allows it. -/
inductive KeyboardEvent where
  | digitKey (d : Char)
  | backspaceKey
  | clearKey
deriving DecidableEq, Repr

/-- The state transition for one template interaction: a digit button calls
`addNumber` with a one-character string. -/
def keyboardStep (st : VirtualKeyboardState) : KeyboardEvent → VirtualKeyboardState
  | .digitKey d => addNumber st [d]
  | .backspaceKey => backspace st
  | .clearKey => clearDisplay st

/-- An event the template can produce: digit events carry one of the keys. -/
def templateEvent : KeyboardEvent → Prop
  | .digitKey d => d ∈ keyboardKeys
  | .backspaceKey => True
  | .clearKey => True

/-- The invariant of claim C8: the display is all digits and no longer than
`maxLength`. -/
def keyboardInvariant (st : VirtualKeyboardState) : Prop :=
  (∀ c ∈ st.displayValue, c.isDigit) ∧ st.displayValue.length ≤ st.maxLength

instance (e : KeyboardEvent) : Decidable (templateEvent e) :=
  match e with
  | .digitKey d => (inferInstance : Decidable (d ∈ keyboardKeys))
  | .backspaceKey => (inferInstance : Decidable True)
  | .clearKey => (inferInstance : Decidable True)

instance (st : VirtualKeyboardState) : Decidable (keyboardInvariant st) := by
  unfold keyboardInvariant
  infer_instance

/-! ## The `QueueService` endpoints (`queue.service.ts`)

`apiUrl` is `` `${environment.apiUrl}/api/v1` ``. Every method builds its URL
as `apiUrl` plus a path; the paths are reproduced from the source, with the
interpolated ids abstracted as strings (their rendered form). -/

/-- HTTP method of a `QueueService` call. -/
inductive HttpMethod where
  | get
  | post
  | patch
deriving DecidableEq, Repr

/-- One HTTP call of `QueueService`: the method and the path appended to
`apiUrl`. -/
structure ApiCall where
  method : HttpMethod
  path : String
deriving DecidableEq, Repr

/-- `QueueService.apiUrl`. -/
def apiUrl (environmentApiUrl : String) : String :=
  environmentApiUrl ++ "/api/v1"

/-- The full URL of a call. -/
def ApiCall.url (c : ApiCall) (environmentApiUrl : String) : String :=
  apiUrl environmentApiUrl ++ c.path

/-- Every HTTP call `QueueService` issues, in source order, with the
interpolated `${id}`/`${queueId}`/`${serviceTypeId}` rendered as `qid` and
`sid`: `getQueueStates`, `initializeQueues`, `getQueueSummary`,
`getActiveQueues`, `getQueueById`, `advanceQueue`, `resetQueue`,
`updateWaitTime`, `initializeAllQueues`, `checkConsistency`,
`refreshAllQueues`, `getServiceTypes`, `getQueueWithTickets`,
`getTicketsByService`, `getTicketStats`, `getServiceStats`, `dailyCleanup`,
`dailyVerification`. -/
def queueServiceCalls (qid sid : String) : List ApiCall :=
  [ ⟨.get, "/queue-states/"⟩,
    ⟨.post, "/queue-states/initialize"⟩,
    ⟨.get, "/queue-states/summary"⟩,
    ⟨.get, "/queue-states/active/all"⟩,
    ⟨.get, "/queue-states/" ++ qid⟩,
    ⟨.post, "/queue-states/advance"⟩,
    ⟨.post, "/queue-states/reset"⟩,
    ⟨.patch, "/queue-states/" ++ qid ++ "/wait-time"⟩,
    ⟨.post, "/queue-states/initialize-all"⟩,
    ⟨.get, "/queue-states/consistency-check"⟩,
    ⟨.post, "/queue-states/refresh-all"⟩,
    ⟨.get, "/service-types/"⟩,
    ⟨.get, "/queue-states/" ++ qid ++ "/with-tickets"⟩,
    ⟨.get, "/tickets/queue/" ++ sid⟩,
    ⟨.get, "/tickets/stats/general"⟩,
    ⟨.get, "/service-types/" ++ sid ++ "/stats"⟩,
    ⟨.post, "/admin/daily-cleanup"⟩,
    ⟨.get, "/admin/daily-verification"⟩ ]

/-- `true` when the path addresses the `queue-states` resource. -/
def onQueueStates (path : String) : Bool :=
  "/queue-states".data.isPrefixOf path.data

/-- The body of the `AdvanceQueueRequest` interface. -/
structure AdvanceQueueRequest where
  ServiceTypeId : Int
  StationId : Option Int
  MarkCompleted : Option Bool
deriving DecidableEq, Repr

/-- `QueueService.advanceQueue(serviceTypeId, stationId)`: the method, URL and
body of the request it issues. -/
def advanceQueueCall (environmentApiUrl : String) (serviceTypeId : Int)
    (stationId : Option Int) : HttpMethod × String × AdvanceQueueRequest :=
  (.post, apiUrl environmentApiUrl ++ "/queue-states/advance",
   { ServiceTypeId := serviceTypeId, StationId := stationId,
     MarkCompleted := some true })

/-! ## The backend queue-advance operation

The backend (FastAPI/SQLAlchemy) is not part of `src/`; only the SQL schema
and the frontend callers are. The operation behind `POST
/api/v1/queue-states/advance` is therefore modelled from the spec. -/

/-- Ticket status as the backend sees it. -/
inductive TicketStatus where
  | waiting
  | called
  | inProgress
  | completed
  | cancelled
  | noShow
deriving DecidableEq, Repr

/-- A ticket as the backend advance operation reads it: identity, status and
creation time. -/
structure BackendTicket where
  id : Nat
  status : TicketStatus
  createdAt : Nat
deriving DecidableEq, Repr

/-- A `dbo.QueueState` row. -/
structure QueueStateRow where
  serviceTypeId : Nat
  stationId : Option Nat
  currentTicketId : Option Nat
  nextTicketId : Option Nat
  queueLength : Nat
  averageWaitTime : Nat
  lastUpdateAt : Nat
deriving DecidableEq, Repr

/-- The earlier-created of two tickets (ties keep the first). -/
def earlierCreated (a b : BackendTicket) : BackendTicket :=
  if b.createdAt < a.createdAt then b else a

/-- The next `Waiting` ticket ordered by creation time: the waiting ticket
with the smallest `createdAt`, if any. -/
def selectNextWaiting (tickets : List BackendTicket) : Option BackendTicket :=
  match tickets.filter (fun t => t.status == .waiting) with
  | [] => none
  | t :: ts => some (ts.foldl earlierCreated t)

/-- Set the status of the ticket with the given id. -/
def setStatus (tickets : List BackendTicket) (tid : Nat)
    (status : TicketStatus) : List BackendTicket :=
  tickets.map fun t => if t.id == tid then { t with status := status } else t

/-- Mark the queue's current ticket (if any) completed. -/
def markCurrentCompleted (tickets : List BackendTicket) :
    Option Nat → List BackendTicket
  | none => tickets
  | some tid => setStatus tickets tid .completed

/-- Modelled from the spec: the backend advance operation behind
`POST /api/v1/queue-states/advance` is absent from `src/`. Per the spec,
advance is "mark current ticket completed, select next Waiting ticket ordered
by creation time, update `QueueState`": the current ticket becomes
`Completed`; the earliest-created `Waiting` ticket becomes the new current
ticket and is marked `Called` (the next step of the spec's status enum); the
`QueueState` row is updated with the new current ticket, the following
earliest `Waiting` ticket as next, the count of remaining `Waiting` tickets
as queue length, and a fresh `LastUpdateAt`. Returns the updated tickets and
the updated row. -/
def advanceQueueState (tickets : List BackendTicket) (qs : QueueStateRow)
    (now : Nat) : List BackendTicket × QueueStateRow :=
  let tickets1 := markCurrentCompleted tickets qs.currentTicketId
  let newCurrent := selectNextWaiting tickets1
  let tickets2 :=
    match newCurrent with
    | some t => setStatus tickets1 t.id .called
    | none => tickets1
  let qs1 : QueueStateRow :=
    { qs with
      currentTicketId := newCurrent.map BackendTicket.id,
      nextTicketId := (selectNextWaiting tickets2).map BackendTicket.id,
      queueLength := (tickets2.filter (fun t => t.status == .waiting)).length,
      lastUpdateAt := now }
  (tickets2, qs1)

/-! # Theorems -/

/-- C4: under the schema constraints of `scripts.sql`, every `Tickets` row has
a `Status` that is one of exactly the six values `Waiting`, `Called`,
`InProgress`, `Completed`, `Cancelled`, `NoShow` (the check constraint accepts
precisely this set), and `ServiceTypes.Code` and `Stations.Code` are unique
across their tables: two rows with the same code are the same row. -/
theorem schema_enforces_status_enum_and_code_uniqueness (db : Database)
    (h : schemaConstraints db) :
    (∀ s, ticketStatusCheck s = true ↔ s ∈ statusOrder) ∧
    (∀ t ∈ db.tickets, t.Status ∈ statusOrder) ∧
    (∀ a ∈ db.serviceTypes, ∀ b ∈ db.serviceTypes, a.Code = b.Code → a = b) ∧
    (∀ a ∈ db.stations, ∀ b ∈ db.stations, a.Code = b.Code → a = b) := by
  obtain ⟨htick, -, -, hsvc, hstn⟩ := h
  have hiff : ∀ s, ticketStatusCheck s = true ↔ s ∈ statusOrder := by
    intro s
    simp only [ticketStatusCheck, statusOrder, Bool.or_eq_true, beq_iff_eq,
      List.mem_cons, List.not_mem_nil, or_false]
    tauto
  refine ⟨hiff, ?_, ?_, ?_⟩
  · intro t ht
    exact (hiff t.Status).mp (htick t ht)
  · intro a ha b hb hab
    exact List.inj_on_of_nodup_map hsvc ha hb hab
  · intro a ha b hb hab
    exact List.inj_on_of_nodup_map hstn ha hb hab

/-- C4 witness: the theorem applied to a concrete one-row database. -/
theorem schema_enforces_status_enum_and_code_uniqueness_witness :
    ticketStatusCheck "Waiting" = true ↔ "Waiting" ∈ statusOrder :=
  (schema_enforces_status_enum_and_code_uniqueness
    { tickets := [{ Id := 1, TicketNumber := "A001", PatientId := 1,
                    ServiceTypeId := 1, StationId := none, Status := "Waiting",
                    Position := 1, CreatedAt := 0 }],
      serviceTypes := [{ Id := 1, Code := "LAB", Name := "Laboratorio",
                         Priority := 1, IsActive := true }],
      stations := [{ Id := 1, Name := "Ventanilla 1", Code := "V1",
                     ServiceTypeId := some 1, Status := "Available",
                     IsActive := true }] }
    (by decide)).1 "Waiting"

/-- C3 counterexample: the `Tickets` table constraints accept an update that
moves a ticket from `Completed` back to `Waiting`, an earlier status in the
enum order, so monotonic status transitions are not enforced by the database
constraints. -/
theorem status_backward_transition_allowed :
    ticketStatusUpdateAllowed "Completed" "Waiting" = true ∧
    statusRank "Waiting" < statusRank "Completed" := by
  decide

/-- C3 (amended): the database constraints on the `Tickets` table enforce only
that `Status` is one of the six enum values; any update whose new status is
one of the six is accepted regardless of the previous status, so the
constraints do not enforce monotonicity along the enum order. -/
theorem ticketStatus_constraint_membership_only (oldS newS : String)
    (_hold : oldS ∈ statusOrder) (hnew : newS ∈ statusOrder) :
    ticketStatusUpdateAllowed oldS newS = true := by
  fin_cases hnew <;> rfl

/-- C3 witness: the amended theorem at the backward pair
`Completed → Waiting`. -/
theorem ticketStatus_constraint_membership_only_witness :
    ticketStatusUpdateAllowed "Completed" "Waiting" = true :=
  ticketStatus_constraint_membership_only "Completed" "Waiting"
    (by decide) (by decide)

/-- Attaching the token never changes the request URL, so the auth-endpoint
test gives the same answer before and after. -/
theorem isAuthEndpoint_attachToken (token : Option String) (request : HttpRequest) :
    isAuthEndpoint (attachToken token request) = isAuthEndpoint request := by
  cases token with
  | none => rfl
  | some t =>
      show isAuthEndpoint
          (if (t != "" && !isAuthEndpoint request) = true
           then addTokenToRequest request t
           else request) = isAuthEndpoint request
      by_cases h : (t != "" && !isAuthEndpoint request) = true
      · rw [if_pos h]
        rfl
      · rw [if_neg h]

/-- C2: for a request to a non-auth endpoint that fails with 401, the
interceptor refreshes the token; on refresh success it forwards the original
request exactly once more, with the new token attached, and delivers that
retry's outcome to the caller; on refresh failure it logs the user out and
propagates the refresh error to the caller. (When the retry itself fails, its
error is likewise caught by the `catchError` of `handle401Error`, logging the
user out — see `handle401Error`.) -/
theorem interceptor_retries_401_once {α : Type} (token : Option String)
    (request : HttpRequest) (handle : HttpRequest → HttpOutcome α)
    (refreshOutcome : HttpOutcome String)
    (hne : isAuthEndpoint request = false)
    (h401 : handle (attachToken token request) = .failure 401) :
    (∀ newToken, refreshOutcome = .success newToken →
        (intercept token request handle refreshOutcome).forwarded =
          [attachToken token request,
           addTokenToRequest (attachToken token request) newToken] ∧
        (intercept token request handle refreshOutcome).result =
          handle (addTokenToRequest (attachToken token request) newToken) ∧
        (intercept token request handle refreshOutcome).refreshAttempted = true) ∧
    (∀ status, refreshOutcome = .failure status →
        intercept token request handle refreshOutcome =
          { forwarded := [attachToken token request],
            result := .failure status,
            refreshAttempted := true, loggedOut := true }) := by
  have hne1 : isAuthEndpoint (attachToken token request) = false := by
    rw [isAuthEndpoint_attachToken, hne]
  constructor
  · intro newToken hrefresh
    subst hrefresh
    cases hr : handle (addTokenToRequest (attachToken token request) newToken) with
    | success v =>
        refine ⟨?_, ?_, ?_⟩ <;> simp [intercept, h401, hne1, handle401Error, hr]
    | failure s =>
        refine ⟨?_, ?_, ?_⟩ <;> simp [intercept, h401, hne1, handle401Error, hr]
  · intro status hrefresh
    subst hrefresh
    simp [intercept, h401, hne1, handle401Error]

/-- C2 witness: the theorem at a concrete 401-failing request, once with a
succeeding refresh (the retry is forwarded with the new token and its outcome
delivered) and once with a failing refresh (logout and propagation). -/
theorem interceptor_retries_401_once_witness :
    ((intercept (α := Nat) none { url := "/api/v1/queue-states/", authorization := none }
        (fun _ => .failure 401) (.success "tok2")).forwarded =
      [{ url := "/api/v1/queue-states/", authorization := none },
       { url := "/api/v1/queue-states/", authorization := some "Bearer tok2" }]) ∧
    ((intercept (α := Nat) none { url := "/api/v1/queue-states/", authorization := none }
        (fun _ => .failure 401) (.success "tok2")).result = .failure 401) ∧
    (intercept (α := Nat) none { url := "/api/v1/queue-states/", authorization := none }
        (fun _ => .failure 401) (.failure 500) =
      { forwarded := [{ url := "/api/v1/queue-states/", authorization := none }],
        result := .failure 500, refreshAttempted := true, loggedOut := true }) :=
  ⟨((interceptor_retries_401_once none
      { url := "/api/v1/queue-states/", authorization := none }
      (fun _ => .failure 401) (.success "tok2") (by decide) rfl).1 "tok2" rfl).1,
   ((interceptor_retries_401_once none
      { url := "/api/v1/queue-states/", authorization := none }
      (fun _ => .failure 401) (.success "tok2") (by decide) rfl).1 "tok2" rfl).2.1,
   (interceptor_retries_401_once none
      { url := "/api/v1/queue-states/", authorization := none }
      (fun _ => .failure 401) (.failure 500) (by decide) rfl).2 500 rfl⟩

/-- C9: for a request whose URL contains `/login`, `/refresh` or
`/reset-password`, the interceptor forwards exactly the original request with
its `Authorization` header untouched, never attempts a token refresh, and
never logs the user out, whatever the outcome. -/
theorem interceptor_leaves_auth_endpoints_alone {α : Type} (token : Option String)
    (request : HttpRequest) (handle : HttpRequest → HttpOutcome α)
    (refreshOutcome : HttpOutcome String)
    (hauth : isAuthEndpoint request = true) :
    (intercept token request handle refreshOutcome).forwarded = [request] ∧
    (intercept token request handle refreshOutcome).refreshAttempted = false ∧
    (intercept token request handle refreshOutcome).loggedOut = false := by
  have hreq1 : attachToken token request = request := by
    cases token with
    | none => rfl
    | some t => simp [attachToken, hauth]
  cases h : handle request with
  | success v => simp [intercept, hreq1, h]
  | failure status => simp [intercept, hreq1, h, hauth]

/-- C9 witness: the theorem at a concrete login request. -/
theorem interceptor_leaves_auth_endpoints_alone_witness :
    (intercept (α := Nat) (some "t") { url := "/api/v1/auth/login", authorization := none }
        (fun _ => .failure 401) (.failure 500)).forwarded =
      [{ url := "/api/v1/auth/login", authorization := none }] ∧
    (intercept (α := Nat) (some "t") { url := "/api/v1/auth/login", authorization := none }
        (fun _ => .failure 401) (.failure 500)).refreshAttempted = false :=
  ⟨(interceptor_leaves_auth_endpoints_alone (some "t")
      { url := "/api/v1/auth/login", authorization := none }
      (fun _ => .failure 401) (.failure 500) (by decide)).1,
   (interceptor_leaves_auth_endpoints_alone (some "t")
      { url := "/api/v1/auth/login", authorization := none }
      (fun _ => .failure 401) (.failure 500) (by decide)).2.1⟩

/-- C6 counterexample: `error.error.detail` can be present yet empty; the
source's truthiness test then skips it, so with status 401 `handleError`
returns the fixed re-login message instead of the provided (empty) detail. -/
theorem handleError_present_empty_detail :
    handleError { detail := some "", status := 401 } =
      "No autorizado. Por favor inicie sesi칩n nuevamente." ∧
    "No autorizado. Por favor inicie sesi칩n nuevamente." ≠ "" := by
  exact ⟨rfl, by decide⟩

/-- C6 (amended): `handleError` returns the backend-provided `error.error.detail`
when present and non-empty; when the detail is absent or empty it returns the
fixed message for status 401 (re-login), 403 (no permission), 404 (resource
not found) or 500 (server error), and the generic queue-service message for
every other status. -/
theorem handleError_message_mapping (error : HttpErrorInfo) :
    (∀ d, error.detail = some d → d ≠ "" → handleError error = d) ∧
    ((error.detail = none ∨ error.detail = some "") →
      handleError error =
        if error.status == 401 then "No autorizado. Por favor inicie sesi칩n nuevamente."
        else if error.status == 403 then "No tiene permisos para realizar esta acci칩n."
        else if error.status == 404 then "Recurso no encontrado."
        else if error.status == 500 then "Error del servidor. Por favor intente m치s tarde."
        else "Ocurri칩 un error en el servicio de colas") := by
  constructor
  · intro d hd hne
    simp [handleError, detailTruthy, hd, hne]
  · intro hdet
    rcases hdet with h | h <;> simp [handleError, detailTruthy, h]

/-- C6 witness: the amended theorem at a non-empty detail and at an absent
detail with status 404. -/
theorem handleError_message_mapping_witness :
    handleError { detail := some "Cola no encontrada", status := 500 } =
      "Cola no encontrada" ∧
    handleError { detail := none, status := 404 } = "Recurso no encontrado." :=
  ⟨(handleError_message_mapping { detail := some "Cola no encontrada", status := 500 }).1
      "Cola no encontrada" rfl (by decide),
   (handleError_message_mapping { detail := none, status := 404 }).2 (Or.inl rfl)⟩

/-- The key-scanning loop returns exactly the value of the first probed key
that holds an array, and `[]` when no probed key holds one: the source's
`v && Array.isArray(v)` test holds iff `v` is an array, arrays being truthy. -/
theorem scanPossibleKeys_eq_firstArrayValue (fields : List (String × Json))
    (keys : List String) :
    scanPossibleKeys fields keys = (firstArrayValue fields keys).getD [] := by
  induction keys with
  | nil => rfl
  | cons key rest ih =>
      unfold scanPossibleKeys firstArrayValue
      cases hl : Json.lookup fields key with
      | none => simpa using ih
      | some v =>
          cases v <;> simp [Json.truthy, Json.isArray, Json.asArray, ih]

/-- C10: `getQueueStates` normalises every response body to an array: an array
body is returned unchanged; an object body yields the value of the first of
the keys `queues`, `data`, `items`, `queue_states` that holds an array, and
`[]` when none does; every non-array non-object body (`null`, boolean, number,
string) yields `[]`. -/
theorem getQueueStates_normalizes_to_array (response : Json) :
    (∀ items, response = .array items →
        normalizeQueueStatesResponse response = items) ∧
    (∀ fields items, response = .object fields →
        firstArrayValue fields possibleKeys = some items →
        normalizeQueueStatesResponse response = items) ∧
    (∀ fields, response = .object fields →
        firstArrayValue fields possibleKeys = none →
        normalizeQueueStatesResponse response = []) ∧
    (response = .null → normalizeQueueStatesResponse response = []) ∧
    (∀ b, response = .boolean b → normalizeQueueStatesResponse response = []) ∧
    (∀ n, response = .number n → normalizeQueueStatesResponse response = []) ∧
    (∀ s, response = .string s → normalizeQueueStatesResponse response = []) := by
  refine ⟨?_, ?_, ?_, ?_, ?_, ?_, ?_⟩
  · intro items h
    subst h
    rfl
  · intro fields items h hfirst
    subst h
    show scanPossibleKeys fields possibleKeys = items
    rw [scanPossibleKeys_eq_firstArrayValue, hfirst]
    rfl
  · intro fields h hfirst
    subst h
    show scanPossibleKeys fields possibleKeys = []
    rw [scanPossibleKeys_eq_firstArrayValue, hfirst]
    rfl
  · intro h
    subst h
    rfl
  · intro b h
    subst h
    simp [normalizeQueueStatesResponse, Json.truthy, Json.typeofObject, Json.isArray]
  · intro n h
    subst h
    simp [normalizeQueueStatesResponse, Json.truthy, Json.typeofObject, Json.isArray]
  · intro s h
    subst h
    simp [normalizeQueueStatesResponse, Json.truthy, Json.typeofObject, Json.isArray]

/-- C10 witness: the theorem at an array body, at a wrapped-object body whose
second probed key holds an array, and at a string body. -/
theorem getQueueStates_normalizes_to_array_witness :
    normalizeQueueStatesResponse (.array [.number 7]) = [.number 7] ∧
    normalizeQueueStatesResponse
      (.object [("total", .number 3), ("data", .array [.number 1, .number 2])]) =
      [.number 1, .number 2] ∧
    normalizeQueueStatesResponse (.string "oops") = [] :=
  ⟨(getQueueStates_normalizes_to_array (.array [.number 7])).1 [.number 7] rfl,
   (getQueueStates_normalizes_to_array
      (.object [("total", .number 3), ("data", .array [.number 1, .number 2])])).2.1
      [("total", .number 3), ("data", .array [.number 1, .number 2])]
      [.number 1, .number 2] rfl rfl,
   (getQueueStates_normalizes_to_array (.string "oops")).2.2.2.2.2.2 "oops" rfl⟩

/-- Every key of the virtual keyboard's template is a digit. -/
theorem keyboardKeys_digits : ∀ c ∈ keyboardKeys, c.isDigit := by decide

/-- C8: every template interaction (`addNumber` with a template key,
`backspace`, `clear`) preserves the invariant that `displayValue` is a string
of digits of length at most `maxLength`, and `onSubmit` only ever emits a
value whose length is between `minLength` and `maxLength`. -/
theorem virtualKeyboard_invariant_and_submit_bounds (st : VirtualKeyboardState)
    (e : KeyboardEvent) (hev : templateEvent e) (hinv : keyboardInvariant st) :
    keyboardInvariant (keyboardStep st e) ∧
    (∀ v, submitEmits st = some v →
        st.minLength ≤ v.length ∧ v.length ≤ st.maxLength) := by
  obtain ⟨hdig, hlen⟩ := hinv
  constructor
  · cases e with
    | digitKey d =>
        show keyboardInvariant (addNumber st [d])
        unfold addNumber
        by_cases h : st.displayValue.length < st.maxLength
        · rw [if_pos h]
          refine ⟨?_, ?_⟩
          · intro c hc
            rcases List.mem_append.mp hc with hc | hc
            · exact hdig c hc
            · rcases List.mem_singleton.mp hc with rfl
              exact keyboardKeys_digits c hev
          · simpa using h
        · rw [if_neg h]
          exact ⟨hdig, hlen⟩
    | backspaceKey =>
        show keyboardInvariant (backspace st)
        unfold backspace
        by_cases h : st.displayValue.length > 0
        · rw [if_pos h]
          refine ⟨?_, ?_⟩
          · intro c hc
            exact hdig c (List.dropLast_subset _ hc)
          · calc st.displayValue.dropLast.length ≤ st.displayValue.length :=
                  by rw [List.length_dropLast]; omega
              _ ≤ st.maxLength := hlen
        · rw [if_neg h]
          exact ⟨hdig, hlen⟩
    | clearKey =>
        show keyboardInvariant (clearDisplay st)
        exact ⟨fun c hc => absurd hc (List.not_mem_nil c), Nat.zero_le _⟩
  · intro v hv
    unfold submitEmits at hv
    by_cases h : keyboardIsValid st = true
    · rw [if_pos h] at hv
      obtain rfl : st.displayValue = v := by injection hv
      unfold keyboardIsValid at h
      simp only [Bool.and_eq_true, decide_eq_true_eq] at h
      exact h
    · rw [if_neg h] at hv
      cases hv

/-- C8 witness: the theorem at a concrete state and a digit-key press. -/
theorem virtualKeyboard_invariant_and_submit_bounds_witness :
    keyboardInvariant
      (keyboardStep { minLength := 2, maxLength := 4, displayValue := ['1', '2'] }
        (.digitKey '3')) :=
  (virtualKeyboard_invariant_and_submit_bounds
    { minLength := 2, maxLength := 4, displayValue := ['1', '2'] }
    (.digitKey '3') (by decide) (by decide)).1

/-- C7: every request `QueueService` issues targets a URL of the form
`environment.apiUrl ++ "/api/v1" ++ p` with `p` starting in `/` (so every URL
is under `/api/v1`); the POST requests addressed to the `queue-states`
resource are exactly (in source order) `initialize`, `advance`, `reset`,
`initialize-all` and `refresh-all`; and `consistency-check` is issued as a
GET request on `queue-states`. -/
theorem queueService_under_apiV1_and_action_endpoints (base qid sid : String) :
    (∀ c ∈ queueServiceCalls qid sid,
        ∃ p, c.url base = base ++ "/api/v1" ++ p ∧ p.data.head? = some '/') ∧
    (((queueServiceCalls qid sid).filter
        (fun c => c.method == .post && onQueueStates c.path)).map ApiCall.path =
      ["/queue-states/initialize", "/queue-states/advance", "/queue-states/reset",
       "/queue-states/initialize-all", "/queue-states/refresh-all"]) ∧
    (⟨.get, "/queue-states/consistency-check"⟩ : ApiCall) ∈ queueServiceCalls qid sid := by
  refine ⟨?_, rfl, ?_⟩
  · intro c hc
    fin_cases hc <;> exact ⟨_, rfl, rfl⟩
  · repeat
      first
        | exact List.Mem.head _
        | apply List.Mem.tail

/-- C7 witness: the theorem at a concrete base URL and concrete ids. -/
theorem queueService_under_apiV1_and_action_endpoints_witness :
    ((queueServiceCalls "5" "3").filter
        (fun c => c.method == .post && onQueueStates c.path)).map ApiCall.path =
      ["/queue-states/initialize", "/queue-states/advance", "/queue-states/reset",
       "/queue-states/initialize-all", "/queue-states/refresh-all"] ∧
    (⟨.get, "/queue-states/consistency-check"⟩ : ApiCall) ∈
      queueServiceCalls "5" "3" :=
  ⟨(queueService_under_apiV1_and_action_endpoints "http://localhost:8000" "5" "3").2.1,
   (queueService_under_apiV1_and_action_endpoints "http://localhost:8000" "5" "3").2.2⟩

/-- `earlierCreated` returns one of its two arguments. -/
theorem earlierCreated_cases (a b : BackendTicket) :
    earlierCreated a b = a ∨ earlierCreated a b = b := by
  unfold earlierCreated
  split
  · right
    rfl
  · left
    rfl

/-- Folding `earlierCreated` returns the seed or a list element. -/
theorem foldl_earlierCreated_mem (t : BackendTicket) (ts : List BackendTicket) :
    ts.foldl earlierCreated t = t ∨ ts.foldl earlierCreated t ∈ ts := by
  induction ts generalizing t with
  | nil =>
      left
      rfl
  | cons a l ih =>
      rcases ih (earlierCreated t a) with h | h
      · rcases earlierCreated_cases t a with he | he
        · left
          rw [List.foldl_cons, h, he]
        · right
          rw [List.foldl_cons, h, he]
          exact List.mem_cons_self a l
      · right
        exact List.mem_cons_of_mem a h

/-- Folding `earlierCreated` yields a creation time no later than the seed's
and than every list element's. -/
theorem foldl_earlierCreated_min (t : BackendTicket) (ts : List BackendTicket) :
    (ts.foldl earlierCreated t).createdAt ≤ t.createdAt ∧
    ∀ u ∈ ts, (ts.foldl earlierCreated t).createdAt ≤ u.createdAt := by
  induction ts generalizing t with
  | nil =>
      exact ⟨le_refl _, by intro u hu; cases hu⟩
  | cons a l ih =>
      obtain ⟨h1, h2⟩ := ih (earlierCreated t a)
      have hta : (earlierCreated t a).createdAt ≤ t.createdAt ∧
          (earlierCreated t a).createdAt ≤ a.createdAt := by
        unfold earlierCreated
        split <;> constructor <;> omega
      refine ⟨le_trans h1 hta.1, ?_⟩
      intro u hu
      rcases List.mem_cons.mp hu with rfl | hu
      · exact le_trans h1 hta.2
      · exact h2 u hu

/-- The ticket `selectNextWaiting` returns is a `Waiting` ticket of the list
with the smallest creation time among all `Waiting` tickets. -/
theorem selectNextWaiting_spec (tickets : List BackendTicket) (t : BackendTicket)
    (h : selectNextWaiting tickets = some t) :
    t ∈ tickets ∧ t.status = .waiting ∧
      ∀ u ∈ tickets, u.status = .waiting → t.createdAt ≤ u.createdAt := by
  unfold selectNextWaiting at h
  cases hf : tickets.filter (fun t => t.status == .waiting) with
  | nil =>
      rw [hf] at h
      cases h
  | cons a l =>
      rw [hf] at h
      injection h with h
      have hmemf : t ∈ tickets.filter (fun t => t.status == .waiting) := by
        rw [hf]
        rcases foldl_earlierCreated_mem a l with hm | hm
        · rw [h] at hm
          rw [hm]
          exact List.mem_cons_self a l
        · rw [h] at hm
          exact List.mem_cons_of_mem a hm
      have hmem := List.mem_filter.mp hmemf
      refine ⟨hmem.1, by simpa using hmem.2, ?_⟩
      intro u hu hw
      have huf : u ∈ tickets.filter (fun t => t.status == .waiting) :=
        List.mem_filter.mpr ⟨hu, by simp [hw]⟩
      rw [hf] at huf
      obtain ⟨h1, h2⟩ := foldl_earlierCreated_min a l
      rcases List.mem_cons.mp huf with rfl | huf
      · rw [← h]
        exact h1
      · rw [← h]
        exact h2 u huf

/-- A member of `setStatus ts tid s` whose id is `tid` has status `s`. -/
theorem setStatus_status_of_id (ts : List BackendTicket) (tid : Nat)
    (s : TicketStatus) (t : BackendTicket) (ht : t ∈ setStatus ts tid s)
    (hid : t.id = tid) : t.status = s := by
  unfold setStatus at ht
  rcases List.mem_map.mp ht with ⟨u, hu, heq⟩
  by_cases h : u.id = tid
  · rw [if_pos (by simpa using h)] at heq
    rw [← heq]
  · rw [if_neg (by simpa using h)] at heq
    rw [← heq] at hid
    exact absurd hid h

/-- After the advance operation, every resulting ticket carrying the queue's
current ticket id has status `Completed`. -/
theorem advance_marks_current_completed (tickets : List BackendTicket)
    (qs : QueueStateRow) (now : Nat) (tid : Nat)
    (hcur : qs.currentTicketId = some tid) :
    ∀ t ∈ (advanceQueueState tickets qs now).1, t.id = tid →
      t.status = .completed := by
  intro t ht htid
  have hres : (advanceQueueState tickets qs now).1 =
      (match selectNextWaiting (markCurrentCompleted tickets qs.currentTicketId) with
       | some nc =>
           setStatus (markCurrentCompleted tickets qs.currentTicketId) nc.id .called
       | none => markCurrentCompleted tickets qs.currentTicketId) := rfl
  rw [hres] at ht
  have hT1 : markCurrentCompleted tickets qs.currentTicketId =
      setStatus tickets tid .completed := by
    rw [hcur]
    rfl
  cases hsel : selectNextWaiting (markCurrentCompleted tickets qs.currentTicketId) with
  | none =>
      rw [hsel] at ht
      rw [hT1] at ht
      exact setStatus_status_of_id _ _ _ t ht htid
  | some nc =>
      rw [hsel] at ht
      obtain ⟨hncmem, hncwait, -⟩ := selectNextWaiting_spec _ nc hsel
      unfold setStatus at ht
      rcases List.mem_map.mp ht with ⟨u, hu, heq⟩
      by_cases hid : u.id = nc.id
      · rw [if_pos (by simpa using hid)] at heq
        have htid' : u.id = tid := by
          rw [← heq] at htid
          exact htid
        have hncid : nc.id = tid := by
          rw [← hid]
          exact htid'
        have hnccomp : nc.status = .completed := by
          rw [hT1] at hncmem
          exact setStatus_status_of_id _ _ _ nc hncmem hncid
        rw [hncwait] at hnccomp
        cases hnccomp
      · rw [if_neg (by simpa using hid)] at heq
        rw [← heq] at htid ⊢
        rw [hT1] at hu
        exact setStatus_status_of_id _ _ _ u hu htid

/-- C1: queue advance marks the current ticket completed, selects the next
`Waiting` ticket ordered by creation time as the new current ticket, and
updates the `QueueState` row (current ticket, queue length, `LastUpdateAt`;
the key fields are untouched); and `QueueService.advanceQueue(serviceTypeId,
stationId)` sends `POST` to `/queue-states/advance` with `MarkCompleted =
true` together with the given `ServiceTypeId` and `StationId`. The backend
operation is modelled from the spec (`advanceQueueState`); the request is
read off `queue.service.ts` (`advanceQueueCall`). -/
theorem advanceQueue_operation_and_request (base : String) (serviceTypeId : Int)
    (stationId : Option Int) (tickets : List BackendTicket) (qs : QueueStateRow)
    (now : Nat) :
    (advanceQueueCall base serviceTypeId stationId =
      (.post, apiUrl base ++ "/queue-states/advance",
       { ServiceTypeId := serviceTypeId, StationId := stationId,
         MarkCompleted := some true })) ∧
    (∀ tid, qs.currentTicketId = some tid →
      ∀ t ∈ (advanceQueueState tickets qs now).1, t.id = tid →
        t.status = .completed) ∧
    (∀ nid, (advanceQueueState tickets qs now).2.currentTicketId = some nid →
      ∃ t ∈ markCurrentCompleted tickets qs.currentTicketId,
        t.id = nid ∧ t.status = .waiting ∧
        ∀ u ∈ markCurrentCompleted tickets qs.currentTicketId,
          u.status = .waiting → t.createdAt ≤ u.createdAt) ∧
    (advanceQueueState tickets qs now).2.lastUpdateAt = now ∧
    (advanceQueueState tickets qs now).2.serviceTypeId = qs.serviceTypeId ∧
    (advanceQueueState tickets qs now).2.stationId = qs.stationId ∧
    (advanceQueueState tickets qs now).2.queueLength =
      ((advanceQueueState tickets qs now).1.filter
        (fun t => t.status == .waiting)).length := by
  refine ⟨rfl, ?_, ?_, rfl, rfl, rfl, rfl⟩
  · intro tid hcur
    exact advance_marks_current_completed tickets qs now tid hcur
  · intro nid hnid
    have h2 : (advanceQueueState tickets qs now).2.currentTicketId =
        (selectNextWaiting (markCurrentCompleted tickets qs.currentTicketId)).map
          BackendTicket.id := rfl
    rw [h2] at hnid
    cases hsel : selectNextWaiting (markCurrentCompleted tickets qs.currentTicketId) with
    | none =>
        rw [hsel] at hnid
        cases hnid
    | some t0 =>
        rw [hsel] at hnid
        injection hnid with hnid
        obtain ⟨hmem, hwait, hmin⟩ := selectNextWaiting_spec _ t0 hsel
        exact ⟨t0, hmem, hnid, hwait, hmin⟩

/-- C1 witness: the theorem at a concrete two-ticket queue: ticket 1 is
current, ticket 2 is the earliest waiting ticket. -/
theorem advanceQueue_operation_and_request_witness :
    (advanceQueueCall "http://localhost:8000" 4 (some 2) =
      (.post, apiUrl "http://localhost:8000" ++ "/queue-states/advance",
       { ServiceTypeId := 4, StationId := some 2,
         MarkCompleted := some true })) ∧
    (∀ t ∈ (advanceQueueState
        [{ id := 1, status := .called, createdAt := 0 },
         { id := 2, status := .waiting, createdAt := 5 }]
        { serviceTypeId := 4, stationId := some 2, currentTicketId := some 1,
          nextTicketId := some 2, queueLength := 1, averageWaitTime := 3,
          lastUpdateAt := 7 } 9).1, t.id = 1 → t.status = .completed) :=
  ⟨(advanceQueue_operation_and_request "http://localhost:8000" 4 (some 2)
      [{ id := 1, status := .called, createdAt := 0 },
       { id := 2, status := .waiting, createdAt := 5 }]
      { serviceTypeId := 4, stationId := some 2, currentTicketId := some 1,
        nextTicketId := some 2, queueLength := 1, averageWaitTime := 3,
        lastUpdateAt := 7 } 9).1,
   (advanceQueue_operation_and_request "http://localhost:8000" 4 (some 2)
      [{ id := 1, status := .called, createdAt := 0 },
       { id := 2, status := .waiting, createdAt := 5 }]
      { serviceTypeId := 4, stationId := some 2, currentTicketId := some 1,
        nextTicketId := some 2, queueLength := 1, averageWaitTime := 3,
        lastUpdateAt := 7 } 9).2.1 1 rfl⟩

/-- C5: advancing an empty queue is a no-op: when the queue holds no waiting
tickets (`QueueLength = 0`, no current ticket and hence no next ticket), the
advance operation leaves the tickets and the queue state's current ticket,
next ticket and queue length unchanged. -/
theorem advance_empty_queue_noop (tickets : List BackendTicket)
    (qs : QueueStateRow) (now : Nat)
    (hw : tickets.filter (fun t => t.status == .waiting) = [])
    (hcur : qs.currentTicketId = none)
    (hnext : qs.nextTicketId = none)
    (hlen : qs.queueLength = 0) :
    (advanceQueueState tickets qs now).1 = tickets ∧
    (advanceQueueState tickets qs now).2.currentTicketId = qs.currentTicketId ∧
    (advanceQueueState tickets qs now).2.nextTicketId = qs.nextTicketId ∧
    (advanceQueueState tickets qs now).2.queueLength = qs.queueLength := by
  have hm : markCurrentCompleted tickets qs.currentTicketId = tickets := by
    rw [hcur]
    rfl
  have hsel : selectNextWaiting tickets = none := by
    unfold selectNextWaiting
    rw [hw]
  have h1 : (advanceQueueState tickets qs now).1 = tickets := by
    show (match selectNextWaiting (markCurrentCompleted tickets qs.currentTicketId) with
          | some t => setStatus (markCurrentCompleted tickets qs.currentTicketId) t.id
              TicketStatus.called
          | none => markCurrentCompleted tickets qs.currentTicketId) = tickets
    rw [hm, hsel]
  have h2 : (advanceQueueState tickets qs now).2.currentTicketId =
      (selectNextWaiting (markCurrentCompleted tickets qs.currentTicketId)).map
        BackendTicket.id := rfl
  have h3 : (advanceQueueState tickets qs now).2.nextTicketId =
      (selectNextWaiting (advanceQueueState tickets qs now).1).map
        BackendTicket.id := rfl
  have h4 : (advanceQueueState tickets qs now).2.queueLength =
      ((advanceQueueState tickets qs now).1.filter
        (fun t => t.status == .waiting)).length := rfl
  refine ⟨h1, ?_, ?_, ?_⟩
  · rw [h2, hm, hsel, hcur]
    rfl
  · rw [h3, h1, hsel, hnext]
    rfl
  · rw [h4, h1, hw, hlen]
    rfl

/-- C5 witness: the theorem at a concrete empty queue with one completed
ticket on file. -/
theorem advance_empty_queue_noop_witness :
    (advanceQueueState [{ id := 1, status := .completed, createdAt := 0 }]
      { serviceTypeId := 4, stationId := none, currentTicketId := none,
        nextTicketId := none, queueLength := 0, averageWaitTime := 3,
        lastUpdateAt := 7 } 9).1 =
      [{ id := 1, status := .completed, createdAt := 0 }] ∧
    (advanceQueueState [{ id := 1, status := .completed, createdAt := 0 }]
      { serviceTypeId := 4, stationId := none, currentTicketId := none,
        nextTicketId := none, queueLength := 0, averageWaitTime := 3,
        lastUpdateAt := 7 } 9).2.queueLength = 0 :=
  ⟨(advance_empty_queue_noop [{ id := 1, status := .completed, createdAt := 0 }]
      { serviceTypeId := 4, stationId := none, currentTicketId := none,
        nextTicketId := none, queueLength := 0, averageWaitTime := 3,
        lastUpdateAt := 7 } 9 rfl rfl rfl rfl).1,
   (advance_empty_queue_noop [{ id := 1, status := .completed, createdAt := 0 }]
      { serviceTypeId := 4, stationId := none, currentTicketId := none,
        nextTicketId := none, queueLength := 0, averageWaitTime := 3,
        lastUpdateAt := 7 } 9 rfl rfl rfl rfl).2.2.2⟩

end AppQueue
